import Mathlib

/-!
Verification of the zsh-from-source build orchestrator (src/zsh-from-source.py).

The script is embedded shallowly: the process world (exit codes of external
commands, the environment of the interpreter, the home directory, the name the
temporary-directory allocator returns, and the top-level member name of each
extracted archive) is a `World`; the mutable process state (current working
directory, filesystem, the list of spawned subprocesses, the log records) is a
`St`; python exceptions are the error side of an except monad over `St`.
-/

namespace ZshFromSource

/-- An environment mapping, as an association list (python dict of strings). -/
abbrev Env : Type := List (String × String)

/-- Python dict lookup `e[k]` returning an option (dict.get). -/
def envGet (e : Env) (k : String) : Option String :=
  match e with
  | [] => none
  | kv :: rest => if kv.1 = k then some kv.2 else envGet rest k

/-- Python `e.get(k, d)`. -/
def envGetD (e : Env) (k d : String) : String :=
  (envGet e k).getD d

/-- Python dict assignment `e[k] = v` (update the existing key or append). -/
def envSet (e : Env) (k v : String) : Env :=
  match e with
  | [] => [(k, v)]
  | kv :: rest => if kv.1 = k then (k, v) :: rest else kv :: envSet rest k v

/-- Python truthiness of an optional string: None and the empty string are falsy. -/
def pyTruthy (o : Option String) : Bool :=
  match o with
  | none => false
  | some s => s ≠ ""

/-- Structural test that the first list is an initial segment of the second
(kernel-computable replacement for the runtime substring primitives). -/
def strPre (pre s : List Char) : Bool :=
  match pre, s with
  | [], _ => true
  | _ :: _, [] => false
  | a :: pre2, b :: s2 => a == b && strPre pre2 s2

/-- str.startswith. -/
def strStarts (s pre : String) : Bool := strPre pre.data s.data

/-- str.upper. -/
def pyUpper (s : String) : String := ⟨s.data.map Char.toUpper⟩

/-- Whether a path is absolute. -/
def isAbs (p : String) : Bool := strStarts p "/"

/-- Resolution of a possibly relative path against a working directory
(the semantics of os.chdir and of spawning a process with a relative path). -/
def resolve (cwd p : String) : String :=
  if isAbs p then p else cwd ++ "/" ++ p

/-- os.path.join of two components. -/
def pyJoin (a b : String) : String :=
  if isAbs b then b else a ++ "/" ++ b

/-- os.path.expanduser for a given home directory. -/
def pyExpanduser (home p : String) : String :=
  if p = "~" then home
  else if strStarts p "~/" then home ++ p.drop 1
  else p

/-- Python exceptions the script can raise. -/
inductive PyErr : Type where
  | calledProcessError (argv : List String) (returncode : Nat)
  | typeError (msg : String)
deriving DecidableEq

/-- The subprocess.CompletedProcess object: command, exit status, and the
captured stderr, which is always None because no run uses capture_output. -/
structure Completed : Type where
  args : List String
  returncode : Nat
  stderr : Option String
deriving DecidableEq

/-- One spawned subprocess: its argv, the environment handed to it, and the
working directory it inherited. -/
structure Proc : Type where
  argv : List String
  env : Env
  cwd : String
deriving DecidableEq

/-- The mutable process-wide state: current directory, the set of existing
filesystem paths, the list of spawned subprocesses, and the emitted log
records (level, message). -/
structure St : Type where
  cwd : String
  fs : List String
  trace : List Proc
  logs : List (Nat × Option String)
deriving DecidableEq

/-- An initial state with an empty trace and log. -/
def initSt (cwd : String) (fs : List String) : St :=
  { cwd := cwd, fs := fs, trace := [], logs := [] }

/-- The deterministic outside world of one run. -/
structure World : Type where
  /-- Exit status of each spawned command, as a function of argv and env. -/
  exit : List String → Env → Nat
  /-- The home directory of the current user. -/
  home : String
  /-- os.environ of the interpreter process. -/
  osEnviron : Env
  /-- The path tempfile.TemporaryDirectory allocates. -/
  tmpName : String
  /-- The top-level member name of each archive (tar.getmembers()[0].name). -/
  topDir : String → String

/-- The effect monad of the script: state passing plus python exceptions.
The state survives an exception, so the trace of spawned commands is
observable on every exit path. -/
abbrev M (α : Type) : Type := St → St × Except PyErr α

def M.pure {α : Type} (a : α) : M α := fun s => (s, Except.ok a)

def M.bind {α β : Type} (x : M α) (f : α → M β) : M β := fun s =>
  match x s with
  | (s1, Except.ok a) => f a s1
  | (s1, Except.error e) => (s1, Except.error e)

instance : Monad M where
  pure := M.pure
  bind := M.bind

/-- Raise a python exception. -/
def pyRaise {α : Type} (e : PyErr) : M α := fun s => (s, Except.error e)

/-- os.getcwd(). -/
def getCwd : M String := fun s => (s, Except.ok s.cwd)

/-- os.path.exists. -/
def pathExists (p : String) : M Bool := fun s =>
  (s, Except.ok (s.fs.contains (resolve s.cwd p)))

/-- os.makedirs. -/
def makedirs (p : String) : M Unit := fun s =>
  ({ s with fs := s.fs ++ [resolve s.cwd p] }, Except.ok ())

/-- tarfile extractall followed by tar.getmembers()[0].name: creates the
top-level directory of the archive and returns its name. -/
def extractTar (w : World) (archive : String) : M String := fun s =>
  ({ s with fs := s.fs ++ [resolve s.cwd (w.topDir archive)] },
   Except.ok (w.topDir archive))

/-- subprocess.run: spawns the command (recording it in the trace) and returns
the CompletedProcess; stderr is not captured, hence None. -/
def runProc (w : World) (argv : List String) (env : Env) : M Completed := fun s =>
  ({ s with trace := s.trace ++ [{ argv := argv, env := env, cwd := s.cwd }] },
   Except.ok { args := argv, returncode := w.exit argv env, stderr := none })

/-- CompletedProcess.check_returncode: raises CalledProcessError on non-zero. -/
def check_returncode (c : Completed) : M Unit := fun s =>
  if c.returncode = 0 then (s, Except.ok ())
  else (s, Except.error (PyErr.calledProcessError c.args c.returncode))

/-- The log helper (lines 17-18): records one (level, message) entry. -/
def logMsg (level : Nat) (msg : Option String) : M Unit := fun s =>
  ({ s with logs := s.logs ++ [(level, msg)] }, Except.ok ())

/-- The cd context manager (lines 25-31): chdir to the expanded directory,
run the body, and restore the previous directory on every exit path. -/
def withCd {α : Type} (w : World) (newdir : String) (body : M α) : M α := fun s =>
  match body { s with cwd := resolve s.cwd (pyExpanduser w.home newdir) } with
  | (s1, r) => ({ s1 with cwd := s.cwd }, r)

/-- tempfile.TemporaryDirectory used as a context manager: the directory
exists for the body and the whole subtree is removed on every exit path. -/
def withTempDir {α : Type} (w : World) (body : String → M α) : M α := fun s =>
  match body w.tmpName { s with fs := s.fs ++ [w.tmpName] } with
  | (s1, r) =>
    ({ s1 with
        fs := s1.fs.filter (fun p => !(p == w.tmpName || strStarts p (w.tmpName ++ "/"))) },
      r)

/-- Line 13. -/
def DEFAULT_VERSION : String := "5.8"

/-- The which helper (lines 21-22): os.getenv(program.upper() + "_EXECUTABLE",
program). It is defined by the script but never called. -/
def which (w : World) (program : String) : String :=
  (envGet w.osEnviron (pyUpper program ++ "_EXECUTABLE")).getD program

/-- build_gdbm (lines 34-52). -/
def build_gdbm (w : World) (directory : String) (env : Env)
    (installPfx : Option String) : M String :=
  withCd w directory (do
    let version := "latest"
    let wg ← runProc w
      ["wget", "https://ftp.gnu.org/gnu/gdbm/gdbm-" ++ version ++ ".tar.gz"]
      w.osEnviron
    check_returncode wg
    let source_dir ← extractTar w ("gdbm-" ++ version ++ ".tar.gz")
    withCd w source_dir (do
      let cwd ← getCwd
      let pfx := if pyTruthy installPfx then installPfx.getD ""
                 else pyJoin cwd "gdbm"
      let e := envSet env "CFLAGS" (envGetD env "CFLAGS" "" ++ " -fcommon -fPIC")
      let c1 ← runProc w
        ["./configure", "--enable-shared=no", "--enable-libgdbm-compat",
         "--prefix=" ++ pfx] e
      check_returncode c1
      let c2 ← runProc w ["make"] e
      check_returncode c2
      let c3 ← runProc w ["make", "check"] e
      check_returncode c3
      let c4 ← runProc w ["make", "install"] e
      check_returncode c4
      M.pure pfx))

/-- build_ncurses (lines 55-75). -/
def build_ncurses (w : World) (directory : String) (env : Env)
    (installPfx : Option String) : M String :=
  withCd w directory (do
    let version := "6.2"
    let wg ← runProc w
      ["wget", "https://ftp.gnu.org/pub/gnu/ncurses/ncurses-" ++ version ++ ".tar.gz"]
      w.osEnviron
    check_returncode wg
    let source_dir ← extractTar w ("ncurses-" ++ version ++ ".tar.gz")
    withCd w source_dir (do
      let e := envSet env "CFLAGS" (envGetD env "CFLAGS" "" ++ " -fPIC")
      let cwd ← getCwd
      let pfx := if pyTruthy installPfx then installPfx.getD ""
                 else pyJoin cwd "ncurses"
      let c1 ← runProc w
        ["./configure", "--without-shared", "--without-debug", "--without-ada",
         "--without-cxx", "--without-cxx-binding", "--enable-widec",
         "--prefix=" ++ pfx] e
      check_returncode c1
      let c2 ← runProc w ["make"] e
      check_returncode c2
      let c3 ← runProc w ["make", "install"] e
      check_returncode c3
      let home_terminfo := pyJoin (pyExpanduser w.home "~") ".terminfo"
      let ex ← pathExists home_terminfo
      (if ex = false then do
        let _copySrc := pyJoin (pyJoin pfx "share") "terminfo"
        pyRaise (PyErr.typeError
          "copytree() missing 1 required positional argument: dst")
      else M.pure ())
      M.pure pfx))

/-- download_zsh (lines 78-82). -/
def download_zsh (w : World) : M String := do
  let wg ← runProc w
    ["wget", "https://www.zsh.org/pub/zsh-" ++ DEFAULT_VERSION ++ ".tar.xz"]
    w.osEnviron
  check_returncode wg
  let _ ← extractTar w ("zsh-" ++ DEFAULT_VERSION ++ ".tar.xz")
  let cwd ← getCwd
  M.pure (pyJoin cwd ("zsh-" ++ DEFAULT_VERSION))

/-- The configure command line of the main project (lines 96-98): the
--prefix flag is appended only when the caller supplied a truthy prefix. -/
def configure_cmd_line (installPfx : Option String) : List String :=
  ["./configure"] ++
    (if pyTruthy installPfx then ["--prefix=" ++ installPfx.getD ""] else [])

/-- The body of the dependency loop of build_zsh (lines 88-94) for one
dependency name: reuse the subdirectory if it exists, otherwise create it and
build the dependency there; then append the include/lib flags to the
accumulated environment. -/
def depStep (w : World) (source_dir name : String)
    (builder : World → String → Env → Option String → M String)
    (e : Env) : M Env := do
  let d := pyJoin source_dir name
  let ex ← pathExists d
  let d ← (if ex then M.pure d else do
    makedirs d
    builder w d e none)
  let e := envSet e "CFLAGS" (envGetD e "CFLAGS" "" ++ " -I" ++ d ++ "/include")
  let e := envSet e "LDFLAGS" (envGetD e "LDFLAGS" "" ++ " -L" ++ d ++ "/lib")
  M.pure e

/-- build_zsh (lines 85-112). -/
def build_zsh (w : World) (source_dir : String) (installPfx : Option String) :
    M Unit :=
  withCd w source_dir (do
    let e := w.osEnviron
    let e ← depStep w source_dir "ncurses" build_ncurses e
    let e ← depStep w source_dir "gdbm" build_gdbm e
    let configure ← runProc w (configure_cmd_line installPfx) e
    (if configure.returncode ≠ 0 then do
      logMsg 40 configure.stderr
      check_returncode configure
    else M.pure ())
    let build ← runProc w ["make"] e
    (if build.returncode ≠ 0 then do
      logMsg 40 build.stderr
      check_returncode build
    else M.pure ())
    let install ← runProc w ["make", "install"] e
    (if install.returncode ≠ 0 then check_returncode install else M.pure ())
    M.pure ())

/-- The parsed command line: --source (dest sources) and --prefix. -/
structure Args : Type where
  sources : Option String
  pfx : Option String

/-- The __main__ block (lines 123-128). -/
def pyMain (w : World) (args : Args) : M Unit :=
  withTempDir w (fun wd =>
    withCd w wd (do
      logMsg 20 (some ("Use " ++ wd ++ " as temporary directory"))
      let src ← (if pyTruthy args.sources then
          M.pure (pyExpanduser w.home (args.sources.getD ""))
        else download_zsh w)
      build_zsh w src args.pfx))

/-- The exit status of the interpreter process: 0 when __main__ returns,
1 when it ends with an uncaught exception. -/
def mainExitCode (w : World) (args : Args) (s : St) : Nat :=
  match (pyMain w args s).2 with
  | Except.ok _ => 0
  | Except.error _ => 1

/-! ### Concrete worlds used to instantiate the theorems -/

/-- A world in which every external command succeeds, parameterized by the
interpreter environment. -/
def happyWorld (environ : Env) : World :=
  { exit := fun _ _ => 0
    home := "/home/u"
    osEnviron := environ
    tmpName := "/tmpwd"
    topDir := fun a =>
      if a = "ncurses-6.2.tar.gz" then "ncurses-6.2"
      else if a = "gdbm-latest.tar.gz" then "gdbm-latest"
      else "zsh-5.8" }

/-- A world in which every external command exits with status 7. -/
def failWorld : World :=
  { happyWorld [] with exit := fun _ _ => 7 }

/-- A world with a WGET_EXECUTABLE override present in the environment. -/
def overrideWorld : World :=
  happyWorld [("WGET_EXECUTABLE", "/opt/tools/wget")]

/-- A base interpreter environment with recognizable CFLAGS/LDFLAGS values,
used to observe how the orchestrator appends to them. -/
def baseEnv : Env := [("CFLAGS", "BASECF"), ("LDFLAGS", "BASELD")]

/-! ### The abort-on-first-failure invariant -/

/-- Every spawned command in the list exited with status zero. -/
def exitsOk (w : World) (l : List Proc) : Prop :=
  ∀ p ∈ l, w.exit p.argv p.env = 0

/-- A computation is clean when it only appends to the trace, every spawned
command other than possibly the last one exited with status zero (so no
command is ever spawned after a failed one), and on normal return even the
last one did. -/
def Clean {α : Type} (w : World) (m : M α) : Prop :=
  ∀ s : St, ∃ t : List Proc,
    (m s).1.trace = s.trace ++ t ∧
    (∀ a, (m s).2 = Except.ok a → exitsOk w t) ∧
    exitsOk w t.dropLast

theorem bind_eq {α β : Type} (m : M α) (f : α → M β) : m >>= f = M.bind m f := rfl

theorem pure_eq {α : Type} (a : α) : (pure a : M α) = M.pure a := rfl

theorem exitsOk_nil (w : World) : exitsOk w [] :=
  fun p hp => absurd hp (List.not_mem_nil p)

theorem exitsOk_append {w : World} {l1 l2 : List Proc}
    (h1 : exitsOk w l1) (h2 : exitsOk w l2) : exitsOk w (l1 ++ l2) := by
  intro p hp
  rcases List.mem_append.mp hp with h | h
  · exact h1 p h
  · exact h2 p h

theorem exitsOk_dropLast {w : World} {l : List Proc} (h : exitsOk w l) :
    exitsOk w l.dropLast :=
  fun p hp => h p (List.dropLast_subset l hp)

theorem exitsOk_dropLast_append {w : World} {l1 l2 : List Proc}
    (h1 : exitsOk w l1) (h2 : exitsOk w l2.dropLast) :
    exitsOk w (l1 ++ l2).dropLast := by
  cases l2 with
  | nil => simpa using exitsOk_dropLast h1
  | cons b bs =>
    rw [List.dropLast_append_cons]
    exact exitsOk_append h1 h2

theorem clean_silent {α : Type} (w : World) (m : M α)
    (h : ∀ s, (m s).1.trace = s.trace) : Clean w m := by
  intro s
  refine ⟨[], by simp [h s], fun a _ => exitsOk_nil w, by simpa using exitsOk_nil w⟩

theorem clean_pure {α : Type} (w : World) (a : α) : Clean w (M.pure a) :=
  clean_silent w _ (fun _ => rfl)

theorem clean_bind {α β : Type} (w : World) (m : M α) (f : α → M β)
    (hm : Clean w m) (hf : ∀ a, Clean w (f a)) : Clean w (M.bind m f) := by
  intro s
  obtain ⟨t1, ht1, hok1, hd1⟩ := hm s
  rcases hms : m s with ⟨s1, r⟩
  rw [hms] at ht1 hok1
  cases r with
  | error e =>
    refine ⟨t1, ?_, ?_, hd1⟩
    · simp only [M.bind, hms]
      exact ht1
    · intro a ha
      simp only [M.bind, hms] at ha
      exact Except.noConfusion ha
  | ok a =>
    obtain ⟨t2, ht2, hok2, hd2⟩ := hf a s1
    have hok1' : exitsOk w t1 := hok1 a rfl
    refine ⟨t1 ++ t2, ?_, ?_, ?_⟩
    · simp only [M.bind, hms]
      rw [ht2, ht1, List.append_assoc]
    · intro b hb
      simp only [M.bind, hms] at hb
      exact exitsOk_append hok1' (hok2 b hb)
    · exact exitsOk_dropLast_append hok1' hd2

theorem clean_ite {α : Type} (w : World) (c : Prop) [Decidable c]
    (m1 m2 : M α) (h1 : Clean w m1) (h2 : Clean w m2) :
    Clean w (if c then m1 else m2) := by
  split
  · exact h1
  · exact h2

theorem clean_withCd {α : Type} (w : World) (dir : String) (body : M α)
    (hb : Clean w body) : Clean w (withCd w dir body) := by
  intro s
  obtain ⟨t, ht, hok, hd⟩ :=
    hb { s with cwd := resolve s.cwd (pyExpanduser w.home dir) }
  rcases hbs : body { s with cwd := resolve s.cwd (pyExpanduser w.home dir) }
    with ⟨s1, r⟩
  rw [hbs] at ht hok
  refine ⟨t, ?_, ?_, hd⟩
  · simp only [withCd, hbs]
    exact ht
  · intro a ha
    simp only [withCd, hbs] at ha
    exact hok a ha

theorem clean_withTempDir {α : Type} (w : World) (body : String → M α)
    (hb : ∀ wd, Clean w (body wd)) : Clean w (withTempDir w body) := by
  intro s
  obtain ⟨t, ht, hok, hd⟩ := hb w.tmpName { s with fs := s.fs ++ [w.tmpName] }
  rcases hbs : body w.tmpName { s with fs := s.fs ++ [w.tmpName] } with ⟨s1, r⟩
  rw [hbs] at ht hok
  refine ⟨t, ?_, ?_, hd⟩
  · simp only [withTempDir, hbs]
    exact ht
  · intro a ha
    simp only [withTempDir, hbs] at ha
    exact hok a ha

theorem clean_run_abort {α : Type} (w : World) (argv : List String) (env : Env)
    (g : Completed → M Unit) (k : Completed → M α)
    (hgt : ∀ c s, (g c s).1.trace = s.trace)
    (hga : ∀ c s, c.returncode ≠ 0 → ∃ e, (g c s).2 = Except.error e)
    (hk : ∀ c, Clean w (k c)) :
    Clean w (M.bind (runProc w argv env) (fun c => M.bind (g c) (fun _ => k c))) := by
  intro s
  set p : Proc := { argv := argv, env := env, cwd := s.cwd } with hp
  set c : Completed := { args := argv, returncode := w.exit argv env, stderr := none }
    with hc
  set s1 : St := { s with trace := s.trace ++ [p] } with hs1
  have hrun : runProc w argv env s = (s1, Except.ok c) := rfl
  rcases hgs : g c s1 with ⟨s2, r2⟩
  have hs2 : s2.trace = s.trace ++ [p] := by
    have := hgt c s1
    rw [hgs] at this
    simpa [hs1] using this
  by_cases h0 : w.exit argv env = 0
  · have hpok : exitsOk w [p] := by
      intro q hq
      rcases List.mem_cons.mp hq with h | h
      · rw [h, hp]
        exact h0
      · exact absurd h (List.not_mem_nil q)
    cases r2 with
    | error e =>
      refine ⟨[p], ?_, ?_, by simpa using exitsOk_nil w⟩
      · simp only [M.bind, hrun, hgs]
        exact hs2
      · intro a ha
        simp only [M.bind, hrun, hgs] at ha
        exact Except.noConfusion ha
    | ok u =>
      obtain ⟨t2, ht2, hok2, hd2⟩ := hk c s2
      refine ⟨p :: t2, ?_, ?_, ?_⟩
      · simp only [M.bind, hrun, hgs]
        rw [ht2, hs2, List.append_assoc]
        rfl
      · intro a ha
        simp only [M.bind, hrun, hgs] at ha
        intro q hq
        rcases List.mem_cons.mp hq with h | h
        · rw [h, hp]
          exact h0
        · exact hok2 a ha q h
      · have : p :: t2 = [p] ++ t2 := rfl
        rw [this]
        exact exitsOk_dropLast_append hpok hd2
  · have hcrc : c.returncode ≠ 0 := by
      simpa [hc] using h0
    obtain ⟨e, he⟩ := hga c s1 hcrc
    rw [hgs] at he
    refine ⟨[p], ?_, ?_, by simpa using exitsOk_nil w⟩
    · simp only [M.bind, hrun, hgs]
      cases r2 with
      | error e2 => exact hs2
      | ok u => exact Except.noConfusion he
    · intro a ha
      simp only [M.bind, hrun, hgs] at ha
      cases r2 with
      | error e2 => exact Except.noConfusion ha
      | ok u => exact Except.noConfusion he

theorem check_trace (c : Completed) (s : St) :
    (check_returncode c s).1.trace = s.trace := by
  unfold check_returncode
  split <;> rfl

theorem check_abort (c : Completed) (s : St) (h : c.returncode ≠ 0) :
    ∃ e, (check_returncode c s).2 = Except.error e := by
  refine ⟨PyErr.calledProcessError c.args c.returncode, ?_⟩
  unfold check_returncode
  rw [if_neg h]

theorem guardLog_trace (c : Completed) (s : St) :
    ((if c.returncode ≠ 0 then
        M.bind (logMsg 40 c.stderr) (fun _ => check_returncode c)
      else M.pure ()) s).1.trace = s.trace := by
  split
  · simp only [M.bind, logMsg]
    rw [check_trace]
  · rfl

theorem guardLog_abort (c : Completed) (s : St) (h : c.returncode ≠ 0) :
    ∃ e, ((if c.returncode ≠ 0 then
        M.bind (logMsg 40 c.stderr) (fun _ => check_returncode c)
      else M.pure ()) s).2 = Except.error e := by
  rw [if_pos h]
  simp only [M.bind, logMsg]
  exact check_abort c _ h

theorem guardPlain_trace (c : Completed) (s : St) :
    ((if c.returncode ≠ 0 then check_returncode c else M.pure ()) s).1.trace
      = s.trace := by
  split
  · rw [check_trace]
  · rfl

theorem guardPlain_abort (c : Completed) (s : St) (h : c.returncode ≠ 0) :
    ∃ e, ((if c.returncode ≠ 0 then check_returncode c else M.pure ()) s).2
      = Except.error e := by
  rw [if_pos h]
  exact check_abort c s h

theorem clean_download_zsh (w : World) : Clean w (download_zsh w) := by
  unfold download_zsh
  simp only [bind_eq, pure_eq]
  apply clean_run_abort w _ _ _ _ check_trace check_abort
  intro wg
  apply clean_bind _ _ _ (clean_silent _ _ (fun _ => rfl))
  intro x
  apply clean_bind _ _ _ (clean_silent _ _ (fun _ => rfl))
  intro cwd
  exact clean_pure w _

theorem clean_build_gdbm (w : World) (dir : String) (env : Env)
    (ip : Option String) : Clean w (build_gdbm w dir env ip) := by
  unfold build_gdbm
  apply clean_withCd
  simp only [bind_eq, pure_eq]
  apply clean_run_abort w _ _ _ _ check_trace check_abort
  intro wg
  apply clean_bind _ _ _ (clean_silent _ _ (fun _ => rfl))
  intro source_dir
  apply clean_withCd
  apply clean_bind _ _ _ (clean_silent _ _ (fun _ => rfl))
  intro cwd
  apply clean_run_abort w _ _ _ _ check_trace check_abort
  intro c1
  apply clean_run_abort w _ _ _ _ check_trace check_abort
  intro c2
  apply clean_run_abort w _ _ _ _ check_trace check_abort
  intro c3
  apply clean_run_abort w _ _ _ _ check_trace check_abort
  intro c4
  exact clean_pure w _

theorem clean_build_ncurses (w : World) (dir : String) (env : Env)
    (ip : Option String) : Clean w (build_ncurses w dir env ip) := by
  unfold build_ncurses
  apply clean_withCd
  simp only [bind_eq, pure_eq]
  apply clean_run_abort w _ _ _ _ check_trace check_abort
  intro wg
  apply clean_bind _ _ _ (clean_silent _ _ (fun _ => rfl))
  intro source_dir
  apply clean_withCd
  apply clean_bind _ _ _ (clean_silent _ _ (fun _ => rfl))
  intro cwd
  apply clean_run_abort w _ _ _ _ check_trace check_abort
  intro c1
  apply clean_run_abort w _ _ _ _ check_trace check_abort
  intro c2
  apply clean_run_abort w _ _ _ _ check_trace check_abort
  intro c3
  apply clean_bind _ _ _ (clean_silent _ _ (fun _ => rfl))
  intro ex
  apply clean_bind
  · apply clean_ite
    · exact clean_silent _ _ (fun _ => rfl)
    · exact clean_pure w _
  · intro u
    exact clean_pure w _

theorem clean_depStep (w : World) (sd name : String)
    (builder : World → String → Env → Option String → M String) (e : Env)
    (hb : ∀ d e2, Clean w (builder w d e2 none)) :
    Clean w (depStep w sd name builder e) := by
  unfold depStep
  simp only [bind_eq, pure_eq]
  apply clean_bind _ _ _ (clean_silent _ _ (fun _ => rfl))
  intro ex
  apply clean_bind
  · apply clean_ite
    · exact clean_pure w _
    · exact clean_bind _ _ _ (clean_silent _ _ (fun _ => rfl)) (fun _ => hb _ _)
  · intro d
    exact clean_pure w _

theorem clean_build_zsh (w : World) (sd : String) (ip : Option String) :
    Clean w (build_zsh w sd ip) := by
  unfold build_zsh
  apply clean_withCd
  simp only [bind_eq, pure_eq]
  apply clean_bind _ _ _
    (clean_depStep _ _ _ _ _ (fun d e2 => clean_build_ncurses w d e2 none))
  intro e1
  apply clean_bind _ _ _
    (clean_depStep _ _ _ _ _ (fun d e2 => clean_build_gdbm w d e2 none))
  intro e2
  apply clean_run_abort w _ _ _ _ guardLog_trace guardLog_abort
  intro configure
  apply clean_run_abort w _ _ _ _ guardLog_trace guardLog_abort
  intro build
  apply clean_run_abort w _ _ _ _ guardPlain_trace guardPlain_abort
  intro install
  exact clean_pure w _

theorem envGet_envSet_self (e : Env) (k v : String) :
    envGet (envSet e k v) k = some v := by
  induction e with
  | nil => simp [envSet, envGet]
  | cons kv rest ih =>
    by_cases h : kv.1 = k
    · simp [envSet, h, envGet]
    · simp [envSet, h, envGet, ih]

theorem envGet_envSet_ne (e : Env) (k v k2 : String) (h : k ≠ k2) :
    envGet (envSet e k v) k2 = envGet e k2 := by
  induction e with
  | nil => simp [envSet, envGet, h]
  | cons kv rest ih =>
    by_cases hk : kv.1 = k
    · simp [envSet, hk, envGet, h]
    · simp [envSet, hk, envGet, ih]

theorem envGetD_envSet_self (e : Env) (k v d : String) :
    envGetD (envSet e k v) k d = v := by
  simp [envGetD, envGet_envSet_self]

theorem envGetD_envSet_ne (e : Env) (k v k2 d : String) (h : k ≠ k2) :
    envGetD (envSet e k v) k2 d = envGetD e k2 d := by
  simp [envGetD, envGet_envSet_ne e k v k2 h]

theorem clean_pyMain (w : World) (args : Args) : Clean w (pyMain w args) := by
  unfold pyMain
  apply clean_withTempDir
  intro wd
  apply clean_withCd
  simp only [bind_eq, pure_eq]
  apply clean_bind _ _ _ (clean_silent _ _ (fun _ => rfl))
  intro u
  apply clean_bind
  · apply clean_ite
    · exact clean_pure w _
    · exact clean_download_zsh w
  · intro src
    exact clean_build_zsh w src args.pfx

theorem withTempDir_fs {α : Type} (w : World) (body : String → M α) (s : St) :
    ∀ p ∈ ((withTempDir w body) s).1.fs,
      p ≠ w.tmpName ∧ strStarts p (w.tmpName ++ "/") = false := by
  intro p hp
  unfold withTempDir at hp
  rcases hb : body w.tmpName { s with fs := s.fs ++ [w.tmpName] } with ⟨s1, r⟩
  rw [hb] at hp
  simp only [List.mem_filter] at hp
  obtain ⟨_, hpred⟩ := hp
  rw [Bool.not_eq_true', Bool.or_eq_false_iff] at hpred
  refine ⟨?_, hpred.2⟩
  intro hpe
  rw [hpe] at hpred
  simp at hpred

theorem envGet_set_LD_CF (e : Env) (v : String) :
    envGet (envSet e "LDFLAGS" v) "CFLAGS" = envGet e "CFLAGS" :=
  envGet_envSet_ne e "LDFLAGS" v "CFLAGS" (by decide)

theorem envGetD_set_LD_CF (e : Env) (v d : String) :
    envGetD (envSet e "LDFLAGS" v) "CFLAGS" d = envGetD e "CFLAGS" d :=
  envGetD_envSet_ne e "LDFLAGS" v "CFLAGS" d (by decide)

theorem envGetD_set_CF_LD (e : Env) (v d : String) :
    envGetD (envSet e "CFLAGS" v) "LDFLAGS" d = envGetD e "LDFLAGS" d :=
  envGetD_envSet_ne e "CFLAGS" v "LDFLAGS" d (by decide)

/-! ### The claims -/

/-- C1: in every run of the pipeline, every invoked external command other
than possibly the last one invoked exited with status zero — equivalently, as
soon as any invoked command exits non-zero the orchestrator stops and invokes
no further external command. -/
theorem C1_stops_on_first_failure (w : World) (args : Args) (cwd0 : String)
    (fs0 : List String) :
    ∀ p ∈ ((pyMain w args (initSt cwd0 fs0)).1.trace).dropLast,
      w.exit p.argv p.env = 0 := by
  obtain ⟨t, ht, _, hd⟩ := clean_pyMain w args (initSt cwd0 fs0)
  intro p hp
  rw [ht] at hp
  exact hd p (by simpa [initSt] using hp)

/-- Witness for C1 at a concrete world and run. -/
theorem C1_stops_on_first_failure_witness :
    (happyWorld []).exit
      ["wget", "https://ftp.gnu.org/pub/gnu/ncurses/ncurses-6.2.tar.gz"] [] = 0 :=
  C1_stops_on_first_failure (happyWorld []) ⟨some "/src", none⟩ "/"
    ["/home/u/.terminfo"]
    { argv := ["wget", "https://ftp.gnu.org/pub/gnu/ncurses/ncurses-6.2.tar.gz"]
      env := []
      cwd := "/src/ncurses" }
    (by decide)

/-- C4: on every exit path of a run (normal return or uncaught exception, for
every world including failing ones), the scoped temporary working directory
and everything beneath it are absent from the final filesystem. -/
theorem C4_tempdir_removed (w : World) (args : Args) (s : St) :
    ∀ p ∈ (pyMain w args s).1.fs,
      p ≠ w.tmpName ∧ strStarts p (w.tmpName ++ "/") = false := by
  intro p hp
  exact withTempDir_fs w _ s p hp

/-- Witness for C4 at a concrete world and run. -/
theorem C4_tempdir_removed_witness :
    ("/home/u/.terminfo" : String) ≠ (happyWorld []).tmpName ∧
    strStarts "/home/u/.terminfo" ((happyWorld []).tmpName ++ "/") = false :=
  C4_tempdir_removed (happyWorld []) ⟨some "/w4", none⟩
    (initSt "/" ["/home/u/.terminfo"]) "/home/u/.terminfo" (by decide)

/-- C10: when the home .terminfo directory does not exist, build_ncurses runs
wget, configure, make and make install to completion (all succeeding), then
raises a TypeError at the terminfo-copy step (copytree called without its
required destination argument) and ends in an error instead of returning the
install prefix. -/
theorem C10_missing_terminfo_raises (environ e0 : Env) :
    ((build_ncurses (happyWorld environ) "/d" e0 none (initSt "/" [])).1.trace.map
        Proc.argv)
      = [["wget", "https://ftp.gnu.org/pub/gnu/ncurses/ncurses-6.2.tar.gz"],
         ["./configure", "--without-shared", "--without-debug", "--without-ada",
          "--without-cxx", "--without-cxx-binding", "--enable-widec",
          "--prefix=/d/ncurses-6.2/ncurses"],
         ["make"], ["make", "install"]] ∧
    (build_ncurses (happyWorld environ) "/d" e0 none (initSt "/" [])).2
      = Except.error (PyErr.typeError
          "copytree() missing 1 required positional argument: dst") :=
  ⟨rfl, rfl⟩

/-- C2: in a run in which both dependencies are freshly built, the
dependencies are processed in the fixed declared order (ncurses first, gdbm
second, with install prefixes P1 and P2 respectively), and the environment
handed to the main configure, make and make install contains CFLAGS with
-IP1/include -IP2/include appended in that order and LDFLAGS with
-LP1/lib -LP2/lib appended in that order. -/
theorem C2_flags_in_declared_order :
    (build_zsh (happyWorld baseEnv) "/src" none
        (initSt "/" ["/home/u/.terminfo"])).1.trace =
      [{ argv := ["wget", "https://ftp.gnu.org/pub/gnu/ncurses/ncurses-6.2.tar.gz"],
         env := baseEnv, cwd := "/src/ncurses" },
       { argv := ["./configure", "--without-shared", "--without-debug",
           "--without-ada", "--without-cxx", "--without-cxx-binding",
           "--enable-widec", "--prefix=/src/ncurses/ncurses-6.2/ncurses"],
         env := [("CFLAGS", "BASECF -fPIC"), ("LDFLAGS", "BASELD")],
         cwd := "/src/ncurses/ncurses-6.2" },
       { argv := ["make"],
         env := [("CFLAGS", "BASECF -fPIC"), ("LDFLAGS", "BASELD")],
         cwd := "/src/ncurses/ncurses-6.2" },
       { argv := ["make", "install"],
         env := [("CFLAGS", "BASECF -fPIC"), ("LDFLAGS", "BASELD")],
         cwd := "/src/ncurses/ncurses-6.2" },
       { argv := ["wget", "https://ftp.gnu.org/gnu/gdbm/gdbm-latest.tar.gz"],
         env := baseEnv, cwd := "/src/gdbm" },
       { argv := ["./configure", "--enable-shared=no", "--enable-libgdbm-compat",
           "--prefix=/src/gdbm/gdbm-latest/gdbm"],
         env := [("CFLAGS",
             "BASECF -I/src/ncurses/ncurses-6.2/ncurses/include -fcommon -fPIC"),
           ("LDFLAGS", "BASELD -L/src/ncurses/ncurses-6.2/ncurses/lib")],
         cwd := "/src/gdbm/gdbm-latest" },
       { argv := ["make"],
         env := [("CFLAGS",
             "BASECF -I/src/ncurses/ncurses-6.2/ncurses/include -fcommon -fPIC"),
           ("LDFLAGS", "BASELD -L/src/ncurses/ncurses-6.2/ncurses/lib")],
         cwd := "/src/gdbm/gdbm-latest" },
       { argv := ["make", "check"],
         env := [("CFLAGS",
             "BASECF -I/src/ncurses/ncurses-6.2/ncurses/include -fcommon -fPIC"),
           ("LDFLAGS", "BASELD -L/src/ncurses/ncurses-6.2/ncurses/lib")],
         cwd := "/src/gdbm/gdbm-latest" },
       { argv := ["make", "install"],
         env := [("CFLAGS",
             "BASECF -I/src/ncurses/ncurses-6.2/ncurses/include -fcommon -fPIC"),
           ("LDFLAGS", "BASELD -L/src/ncurses/ncurses-6.2/ncurses/lib")],
         cwd := "/src/gdbm/gdbm-latest" },
       { argv := ["./configure"],
         env := [("CFLAGS",
             "BASECF -I/src/ncurses/ncurses-6.2/ncurses/include -I/src/gdbm/gdbm-latest/gdbm/include"),
           ("LDFLAGS",
             "BASELD -L/src/ncurses/ncurses-6.2/ncurses/lib -L/src/gdbm/gdbm-latest/gdbm/lib")],
         cwd := "/src" },
       { argv := ["make"],
         env := [("CFLAGS",
             "BASECF -I/src/ncurses/ncurses-6.2/ncurses/include -I/src/gdbm/gdbm-latest/gdbm/include"),
           ("LDFLAGS",
             "BASELD -L/src/ncurses/ncurses-6.2/ncurses/lib -L/src/gdbm/gdbm-latest/gdbm/lib")],
         cwd := "/src" },
       { argv := ["make", "install"],
         env := [("CFLAGS",
             "BASECF -I/src/ncurses/ncurses-6.2/ncurses/include -I/src/gdbm/gdbm-latest/gdbm/include"),
           ("LDFLAGS",
             "BASELD -L/src/ncurses/ncurses-6.2/ncurses/lib -L/src/gdbm/gdbm-latest/gdbm/lib")],
         cwd := "/src" }] := rfl

/-- C9 counterexample: with an empty base environment, the gdbm build (the
second dependency processed) spawns its configure with CFLAGS containing the
include flag of the ncurses dependency and LDFLAGS containing its lib flag,
not only a copy of the base environment plus its own flags. -/
theorem C9_counterexample :
    ((build_zsh (happyWorld []) "/src" none
        (initSt "/" ["/home/u/.terminfo"])).1.trace.get? 5).map Proc.env
      = some [("CFLAGS",
          " -I/src/ncurses/ncurses-6.2/ncurses/include -fcommon -fPIC"),
        ("LDFLAGS", " -L/src/ncurses/ncurses-6.2/ncurses/lib")] ∧
    (" -I/src/ncurses/ncurses-6.2/ncurses/include -fcommon -fPIC" : String)
      ≠ " -fcommon -fPIC" :=
  ⟨rfl, by decide⟩

/-- C9 amended: each dependency build receives a copy of the accumulated
environment (the base environment plus the flags of previously processed
dependencies) extended with its own flags, and no dependency build mutates
the mapping owned by the caller: after the dependency builds the main-build
environment holds exactly the accumulated include/lib flags, without any of
the dependency-local additions such as -fcommon or -fPIC. -/
theorem C9_copy_on_extend :
    ((build_zsh (happyWorld baseEnv) "/src" none
        (initSt "/" ["/home/u/.terminfo"])).1.trace.get? 5).map Proc.env
      = some [("CFLAGS",
          "BASECF -I/src/ncurses/ncurses-6.2/ncurses/include -fcommon -fPIC"),
        ("LDFLAGS", "BASELD -L/src/ncurses/ncurses-6.2/ncurses/lib")] ∧
    ((build_zsh (happyWorld baseEnv) "/src" none
        (initSt "/" ["/home/u/.terminfo"])).1.trace.get? 9).map Proc.env
      = some [("CFLAGS",
          "BASECF -I/src/ncurses/ncurses-6.2/ncurses/include -I/src/gdbm/gdbm-latest/gdbm/include"),
        ("LDFLAGS",
          "BASELD -L/src/ncurses/ncurses-6.2/ncurses/lib -L/src/gdbm/gdbm-latest/gdbm/lib")] :=
  ⟨rfl, rfl⟩

/-- C3: when the target subdirectories of both dependencies already exist,
the run performs no fetch and no build for them (only the three main-project
commands are spawned), but the include/lib paths contributed to the main
build are derived from the parent directories themselves, which differ from
the install-prefix paths a fresh build of the dependencies records. -/
theorem C3_reuse_contributes_different_paths :
    ((build_zsh (happyWorld []) "/src" none
        (initSt "/" ["/home/u/.terminfo", "/src/ncurses", "/src/gdbm"])).1.trace.map
        (fun p => (p.argv, p.cwd)))
      = [(["./configure"], "/src"), (["make"], "/src"),
         (["make", "install"], "/src")] ∧
    ((build_zsh (happyWorld []) "/src" none
        (initSt "/" ["/home/u/.terminfo", "/src/ncurses", "/src/gdbm"])).1.trace.get? 0).map
        Proc.env
      = some [("CFLAGS", " -I/src/ncurses/include -I/src/gdbm/include"),
        ("LDFLAGS", " -L/src/ncurses/lib -L/src/gdbm/lib")] ∧
    ((build_zsh (happyWorld []) "/src" none
        (initSt "/" ["/home/u/.terminfo"])).1.trace.get? 9).map Proc.env
      = some [("CFLAGS",
          " -I/src/ncurses/ncurses-6.2/ncurses/include -I/src/gdbm/gdbm-latest/gdbm/include"),
        ("LDFLAGS",
          " -L/src/ncurses/ncurses-6.2/ncurses/lib -L/src/gdbm/gdbm-latest/gdbm/lib")] ∧
    (" -I/src/ncurses/include -I/src/gdbm/include" : String)
      ≠ " -I/src/ncurses/ncurses-6.2/ncurses/include -I/src/gdbm/gdbm-latest/gdbm/include" :=
  ⟨rfl, rfl, rfl, by decide⟩

/-- C5 counterexample: in a world where every external command exits with
status 7, the first command fails and the uncaught CalledProcessError makes
the interpreter exit with status 1, not with the propagated status 7. -/
theorem C5_counterexample :
    mainExitCode failWorld ⟨some "/src5", none⟩ (initSt "/" []) = 1 ∧
    (pyMain failWorld ⟨some "/src5", none⟩ (initSt "/" [])).2
      = Except.error (PyErr.calledProcessError
          ["wget", "https://ftp.gnu.org/pub/gnu/ncurses/ncurses-6.2.tar.gz"] 7) ∧
    (1 : Nat) ≠ 7 :=
  ⟨rfl, rfl, by decide⟩

/-- C5 amended: the process exit code is 0 when every stage succeeds; on any
stage failure the run ends with an uncaught CalledProcessError carrying the
failing command and its non-zero exit status, and the interpreter exits with
status 1; stderr of the failing command is not captured (it is None on every
CompletedProcess). -/
theorem C5_exit_code_behavior :
    mainExitCode (happyWorld baseEnv) ⟨some "/src", none⟩
        (initSt "/" ["/home/u/.terminfo"]) = 0 ∧
    (∀ (w : World) (args : Args) (s : St) (e : PyErr),
      (pyMain w args s).2 = Except.error e → mainExitCode w args s = 1) ∧
    (∀ (w : World) (argv : List String) (env : Env) (s : St),
      ((runProc w argv env) s).2
        = Except.ok { args := argv, returncode := w.exit argv env, stderr := none }) := by
  refine ⟨rfl, ?_, ?_⟩
  · intro w args s e h
    unfold mainExitCode
    rw [h]
  · intro w argv env s
    rfl

/-- Witness for the amended C5 at a concrete failing world. -/
theorem C5_exit_code_behavior_witness :
    mainExitCode failWorld ⟨some "/w5", none⟩ (initSt "/" []) = 1 :=
  C5_exit_code_behavior.2.1 failWorld ⟨some "/w5", none⟩ (initSt "/" [])
    (PyErr.calledProcessError
      ["wget", "https://ftp.gnu.org/pub/gnu/ncurses/ncurses-6.2.tar.gz"] 7) rfl

/-- C6 counterexample: with WGET_EXECUTABLE set in the environment, the
which helper would return the override, yet the command actually invoked for
the first fetch uses the bare name wget, not the override value. -/
theorem C6_counterexample :
    which overrideWorld "wget" = "/opt/tools/wget" ∧
    ((pyMain overrideWorld ⟨some "/src6", none⟩
        (initSt "/" ["/home/u/.terminfo"])).1.trace.head?).map Proc.argv
      = some ["wget", "https://ftp.gnu.org/pub/gnu/ncurses/ncurses-6.2.tar.gz"] ∧
    ("wget" : String) ≠ "/opt/tools/wget" :=
  ⟨rfl, rfl, by decide⟩

/-- C6 amended: the which helper does compute the TOOLNAME_EXECUTABLE
override (defaulting to the bare name), but no invocation uses it: even with
the override set, every command of a full run is invoked under a bare fixed
tool name. -/
theorem C6_which_defined_but_unused :
    which overrideWorld "wget" = "/opt/tools/wget" ∧
    which (happyWorld baseEnv) "wget" = "wget" ∧
    ((pyMain overrideWorld ⟨some "/src6", none⟩
        (initSt "/" ["/home/u/.terminfo"])).1.trace.map (fun p => p.argv.head?))
      = [some "wget", some "./configure", some "make", some "make",
         some "wget", some "./configure", some "make", some "make", some "make",
         some "./configure", some "make", some "make"] :=
  ⟨rfl, rfl, rfl⟩

/-- C7 counterexample: when the supplied source path is the empty string
(falsy in python), the main archive is fetched after all: the first spawned
command of the run is the wget of the main project archive. -/
theorem C7_counterexample :
    ((pyMain (happyWorld baseEnv) ⟨some "", none⟩ (initSt "/" [])).1.trace.head?).map
        (fun p => (p.argv, p.cwd))
      = some (["wget", "https://www.zsh.org/pub/zsh-5.8.tar.xz"], "/tmpwd") := rfl

/-- C7 amended: for a non-empty source path, no command of the run fetches
the main project archive, and every spawned command runs inside the
home-expanded supplied source directory. -/
theorem C7_nonempty_source_no_fetch (px : Option String) :
    ((pyMain (happyWorld baseEnv) ⟨some "~/proj", px⟩
        (initSt "/" ["/home/u/.terminfo"])).1.trace.map
        (fun p => (p.argv == ["wget", "https://www.zsh.org/pub/zsh-5.8.tar.xz"],
          strStarts p.cwd "/home/u/proj")))
      = [(false, true), (false, true), (false, true), (false, true),
         (false, true), (false, true), (false, true), (false, true), (false, true),
         (false, true), (false, true), (false, true)] := rfl

/-- C8 counterexample: with the empty string supplied as the install prefix,
the main configure invocation carries no prefix flag at all instead of the
claimed exact flag. -/
theorem C8_counterexample :
    ((build_zsh (happyWorld baseEnv) "/src8" (some "")
        (initSt "/" ["/home/u/.terminfo"])).1.trace.get? 9).map Proc.argv
      = some ["./configure"] ∧
    (["./configure"] : List String) ≠ ["./configure", "--prefix="] :=
  ⟨rfl, by decide⟩

/-- C8 amended: when the install prefix is omitted or empty (falsy), the main
configure command line carries no prefix flag; when a non-empty prefix is
supplied, it carries exactly the one flag for that prefix. -/
theorem C8_configure_flag (p2 : String) (h : p2 ≠ "") :
    configure_cmd_line none = ["./configure"] ∧
    configure_cmd_line (some "") = ["./configure"] ∧
    configure_cmd_line (some p2) = ["./configure", "--prefix=" ++ p2] ∧
    ((build_zsh (happyWorld baseEnv) "/s8" (some "/opt/zsh")
        (initSt "/" ["/home/u/.terminfo"])).1.trace.get? 9).map Proc.argv
      = some ["./configure", "--prefix=/opt/zsh"] ∧
    ((build_zsh (happyWorld baseEnv) "/s8b" none
        (initSt "/" ["/home/u/.terminfo"])).1.trace.get? 9).map Proc.argv
      = some ["./configure"] := by
  refine ⟨rfl, rfl, ?_, rfl, rfl⟩
  unfold configure_cmd_line
  have hT : pyTruthy (some p2) = true := by simp [pyTruthy, h]
  rw [hT]
  simp

/-- Witness for the amended C8 at a concrete non-empty prefix. -/
theorem C8_configure_flag_witness :
    configure_cmd_line (some "/w8") = ["./configure", "--prefix=/w8"] :=
  (C8_configure_flag "/w8" (by decide)).2.2.1

end ZshFromSource
